import Mathlib

/-!
Shallow embedding of the rugui layout engine (src/lib.rs, src/styles.rs).

Machine `f32` values are modelled as exact rationals (`ℚ`); the single use
of `f32::INFINITY` (the unset upper bound in the clamp of `get_width` /
`get_height`) is modelled by `Option ℚ` with `none` standing for `+∞`.
`u32` viewport extents are modelled as `ℕ` coerced into `ℚ` where the source
casts them to `f32`. Element keys (`ElementKey { id: u64 }`) are modelled as
`ℕ`; the node `HashMap` is modelled as an association list with
insert-replaces and remove semantics.
-/

/-- Rust `Size` from src/styles.rs: the tagged size rule. -/
inductive Size where
  | none
  | fill
  | pixel (v : ℚ)
  | percent (v : ℚ)
  | absFill
  | absPercent (v : ℚ)
  deriving DecidableEq, Repr

/-- Rust `Position` from src/styles.rs: compass anchors plus `Custom(x, y)`. -/
inductive Position where
  | top
  | topLeft
  | topRight
  | right
  | bottom
  | bottomRight
  | bottomLeft
  | left
  | center
  | custom (x y : Size)
  deriving DecidableEq, Repr

/-- Rust `Rotation` from src/styles.rs (declared, never resolved by propagation). -/
inductive Rotation where
  | none
  | absNone
  | deg (v : ℚ)
  | rad (v : ℚ)
  | percent (v : ℚ)
  | absDeg (v : ℚ)
  | absRad (v : ℚ)
  | absPercent (v : ℚ)
  deriving DecidableEq, Repr

/-- Modelled from the spec: the `Color` type lives in the render module,
which is not part of the layout core sources; the spec describes it as an
rgba value defaulting to fully transparent. -/
structure Color where
  r : ℚ
  g : ℚ
  b : ℚ
  a : ℚ
  deriving DecidableEq, Repr

/-- Rust `Color::zeroed()` — rgba(0, 0, 0, 0). -/
def Color.zeroed : Color := ⟨0, 0, 0, 0⟩

/-- Modelled from the spec: a `Texture` is an opaque reference-counted
handle to a decoded image; here an abstract identifier. -/
abbrev TextureHandle : Type := ℕ

/-- Rust `Background` from src/styles.rs (gradients are declared but unresolved;
they never influence the layout core, so they are carried as options of an
abstract point pair exactly as in the source would be; we keep the color and
texture fields the propagation pass reads). -/
structure Background where
  color : Color
  texture : Option TextureHandle
  deriving DecidableEq, Repr

/-- Rust `Border` from src/styles.rs (declared, not resolved). -/
structure Border where
  background : Background
  width : Size
  min_width : Size
  max_width : Size
  radius : Size
  min_radius : Size
  max_radius : Size
  visible : Bool
  deriving DecidableEq, Repr

/-- Rust `Text` from src/styles.rs. -/
structure Text where
  size : Size
  color : Color
  justify : Position
  fit : Bool
  deriving DecidableEq, Repr

/-- Rust `Flags` from src/styles.rs: the dirty-flag bundle. -/
structure Flags where
  dirty_color : Bool
  dirty_texture : Bool
  dirty_lin_gradient : Bool
  dirty_rad_gradient : Bool
  dirty_text : Bool
  dirty_transform : Bool
  dirty_border : Bool
  recalc_transform : Bool
  deriving DecidableEq, Repr

/-- Rust `Flags::default()` — everything dirty. -/
def Flags.default : Flags :=
  ⟨true, true, true, true, true, true, true, true⟩

/-- Rust `Transform` from src/styles.rs: the per-element layout rule record. -/
structure Transform where
  rotation : Rotation
  position : Position
  align : Position
  width : Size
  max_width : Size
  min_width : Size
  height : Size
  max_height : Size
  min_height : Size
  margin : Size
  padding : Size
  deriving DecidableEq, Repr

/-- Rust `StyleSheet` from src/styles.rs. -/
structure StyleSheet where
  transform : Transform
  background : Background
  border : Border
  text : Text
  visible : Bool
  flags : Flags
  deriving DecidableEq, Repr

/-- Rust `StyleSheet::default()` from src/styles.rs. -/
def StyleSheet.default : StyleSheet where
  transform :=
    { rotation := Rotation.none
      position := Position.center
      align := Position.center
      width := Size.fill
      max_width := Size.none
      min_width := Size.none
      height := Size.fill
      max_height := Size.none
      min_height := Size.none
      margin := Size.none
      padding := Size.none }
  background := { color := Color.zeroed, texture := Option.none }
  border :=
    { background := { color := Color.zeroed, texture := Option.none }
      width := Size.none
      min_width := Size.none
      max_width := Size.none
      radius := Size.none
      min_radius := Size.none
      max_radius := Size.none
      visible := false }
  text := { size := Size.none, color := Color.zeroed, justify := Position.center, fit := false }
  visible := true
  flags := Flags.default

/-- Rust `min` against an optional upper bound, `none` standing for `f32::INFINITY`:
`x.min(INFINITY) = x`. -/
def minO (x : ℚ) : Option ℚ → ℚ
  | Option.none => x
  | Option.some m => min x m

/-- The `let w = match self.transform.width { ... }` step of
`StyleSheet::get_width`. -/
def StyleSheet.rawWidth (s : StyleSheet) (parent_width window_width : ℚ) : ℚ :=
  match s.transform.width with
  | Size.fill => parent_width
  | Size.pixel width => width
  | Size.percent percent => parent_width * (percent / 100)
  | Size.none => parent_width
  | Size.absFill => window_width
  | Size.absPercent percent => window_width * (percent / 100)

/-- The `let min = match self.transform.min_width { ... }` step of
`StyleSheet::get_width` (`_ => 0.0`). -/
def StyleSheet.minWidth (s : StyleSheet) (parent_width window_width : ℚ) : ℚ :=
  match s.transform.min_width with
  | Size.pixel width => width
  | Size.percent percent => parent_width * (percent / 100)
  | Size.absFill => window_width
  | Size.absPercent percent => window_width * (percent / 100)
  | _ => 0

/-- The `let max = match self.transform.max_width { ... }` step of
`StyleSheet::get_width` (`_ => std::f32::INFINITY`, modelled as `none`). -/
def StyleSheet.maxWidth (s : StyleSheet) (parent_width window_width : ℚ) : Option ℚ :=
  match s.transform.max_width with
  | Size.pixel width => Option.some width
  | Size.percent percent => Option.some (parent_width * (percent / 100))
  | Size.absFill => Option.some window_width
  | Size.absPercent percent => Option.some (window_width * (percent / 100))
  | _ => Option.none

/-- The `let margin = match self.transform.margin { ... }` step of
`StyleSheet::get_width` (`_ => 0.0`; note `AbsFill` falls to the default). -/
def StyleSheet.marginWidth (s : StyleSheet) (parent_width window_width : ℚ) : ℚ :=
  match s.transform.margin with
  | Size.pixel width => width
  | Size.percent percent => parent_width * (percent / 100)
  | Size.absPercent percent => window_width * (percent / 100)
  | _ => 0

/-- Rust `StyleSheet::get_width` from src/styles.rs:
`(w - margin).min(max).max(min)`. -/
def StyleSheet.get_width (s : StyleSheet) (parent_width window_width : ℚ) : ℚ :=
  max (minO (s.rawWidth parent_width window_width - s.marginWidth parent_width window_width)
        (s.maxWidth parent_width window_width))
    (s.minWidth parent_width window_width)

/-- The `let h = match self.transform.height { ... }` step of
`StyleSheet::get_height`. -/
def StyleSheet.rawHeight (s : StyleSheet) (parent_height window_height : ℚ) : ℚ :=
  match s.transform.height with
  | Size.fill => parent_height
  | Size.pixel height => height
  | Size.percent percent => parent_height * (percent / 100)
  | Size.none => parent_height
  | Size.absFill => window_height
  | Size.absPercent percent => window_height * (percent / 100)

/-- The `let min = match self.transform.min_height { ... }` step of
`StyleSheet::get_height`. -/
def StyleSheet.minHeight (s : StyleSheet) (parent_height window_height : ℚ) : ℚ :=
  match s.transform.min_height with
  | Size.pixel height => height
  | Size.percent percent => parent_height * (percent / 100)
  | Size.absFill => window_height
  | Size.absPercent percent => window_height * (percent / 100)
  | _ => 0

/-- The `let max = match self.transform.max_height { ... }` step of
`StyleSheet::get_height`. -/
def StyleSheet.maxHeight (s : StyleSheet) (parent_height window_height : ℚ) : Option ℚ :=
  match s.transform.max_height with
  | Size.pixel height => Option.some height
  | Size.percent percent => Option.some (parent_height * (percent / 100))
  | Size.absFill => Option.some window_height
  | Size.absPercent percent => Option.some (window_height * (percent / 100))
  | _ => Option.none

/-- The `let margin = match self.transform.margin { ... }` step of
`StyleSheet::get_height`. -/
def StyleSheet.marginHeight (s : StyleSheet) (parent_height window_height : ℚ) : ℚ :=
  match s.transform.margin with
  | Size.pixel height => height
  | Size.percent percent => parent_height * (percent / 100)
  | Size.absPercent percent => window_height * (percent / 100)
  | _ => 0

/-- Rust `StyleSheet::get_height` from src/styles.rs:
`(h - margin).min(max).max(min)`. -/
def StyleSheet.get_height (s : StyleSheet) (parent_height window_height : ℚ) : ℚ :=
  max (minO (s.rawHeight parent_height window_height - s.marginHeight parent_height window_height)
        (s.maxHeight parent_height window_height))
    (s.minHeight parent_height window_height)

/-- Rust `StyleSheet::get_x` from src/styles.rs: anchor offset from the parent
center based on `transform.position`, plus a self-alignment offset based on
`transform.align`. -/
def StyleSheet.get_x (s : StyleSheet) (parent_x parent_width width : ℚ) : ℚ :=
  let x : ℚ :=
    match s.transform.position with
    | Position.bottomLeft | Position.left | Position.topLeft =>
        parent_x - parent_width / 2
    | Position.bottom | Position.center | Position.top => parent_x
    | Position.bottomRight | Position.right | Position.topRight =>
        parent_x + parent_width / 2
    | Position.custom cx _ =>
        match cx with
        | Size.pixel px => parent_x + px
        | Size.percent percent => parent_x + parent_width * (percent / 100)
        | _ => parent_x
  let align : ℚ :=
    match s.transform.align with
    | Position.bottomLeft | Position.left | Position.topLeft => width / 2
    | Position.bottom | Position.center | Position.top => 0
    | Position.bottomRight | Position.right | Position.topRight => -width / 2
    | Position.custom cx _ =>
        match cx with
        | Size.pixel px => px
        | Size.percent percent => width * (percent / 100)
        | _ => 0
  x + align

/-- Rust `StyleSheet::get_y` from src/styles.rs. Note: the anchor arm uses the
element's own `height` argument (`parent_y - height / 2.0`), not
`parent_height`, exactly as the source does. -/
def StyleSheet.get_y (s : StyleSheet) (parent_y parent_height height : ℚ) : ℚ :=
  let y : ℚ :=
    match s.transform.position with
    | Position.topLeft | Position.top | Position.topRight => parent_y - height / 2
    | Position.left | Position.center | Position.right => parent_y
    | Position.bottomLeft | Position.bottom | Position.bottomRight =>
        parent_y + height / 2
    | Position.custom _ cy =>
        match cy with
        | Size.pixel py => parent_y + py
        | Size.percent percent => parent_y + parent_height * (percent / 100)
        | _ => parent_y
  let align : ℚ :=
    match s.transform.align with
    | Position.topLeft | Position.top | Position.topRight => height / 2
    | Position.left | Position.center | Position.right => 0
    | Position.bottomLeft | Position.bottom | Position.bottomRight => -height / 2
    | Position.custom _ cy =>
        match cy with
        | Size.pixel py => py
        | Size.percent percent => height * (percent / 100)
        | _ => 0
  y + align

/-- Rust `NodeTransform` from src/lib.rs: position of the center, scale
(width, height), rotation in radians. -/
structure NodeTransform where
  position : ℚ × ℚ
  scale : ℚ × ℚ
  rotation : ℚ
  deriving DecidableEq, Repr

/-- Modelled from the spec: the `RenderElement` renderable representation
(render module, outside the layout core sources) supports `set_transform`,
`set_color`, `set_texture` and a zeroed construction; here it is the record
of the last values pushed to it. -/
structure RenderElement where
  transform : NodeTransform
  color : Color
  texture : Option TextureHandle
  deriving DecidableEq, Repr

/-- Rust `RenderElement::zeroed`. -/
def RenderElement.zeroed : RenderElement :=
  { transform := ⟨(0, 0), (0, 0), 0⟩, color := Color.zeroed, texture := Option.none }

/-- Rust `RenderElement::set_color`. -/
def RenderElement.set_color (r : RenderElement) (c : Color) : RenderElement :=
  { r with color := c }

/-- Rust `RenderElement::set_texture`. -/
def RenderElement.set_texture (r : RenderElement) (t : TextureHandle) : RenderElement :=
  { r with texture := Option.some t }

/-- Rust `RenderElement::set_transform`. -/
def RenderElement.set_transform (r : RenderElement) (t : NodeTransform) : RenderElement :=
  { r with transform := t }

/-- Rust `ElementKey { id: u64 }` from src/lib.rs, modelled as its id. -/
abbrev ElementKey : Type := ℕ

/-- Rust `Children` from src/lib.rs. -/
inductive Children where
  | element (key : ElementKey)
  | layers (children : List ElementKey)
  | rows (children : List ElementKey) (spacing : Size)
  | columns (children : List ElementKey) (spacing : Size)
  | none
  deriving DecidableEq, Repr

/-- Rust `Element` from src/lib.rs (the diagnostic `label` and the opaque
event-listener map play no part in layout and are omitted). -/
structure Element where
  render_element : RenderElement
  styles : StyleSheet
  children : Children
  deriving DecidableEq, Repr

/-- The node `HashMap<ElementKey, Element>` modelled as an association
list. -/
abbrev NodeMap : Type := List (ElementKey × Element)

/-- Rust `HashMap::get`. -/
def NodeMap.find (m : NodeMap) (k : ElementKey) : Option Element :=
  (m.find? (fun p => p.1 = k)).map (fun p => p.2)

/-- Rust `HashMap::remove`. -/
def NodeMap.erase (m : NodeMap) (k : ElementKey) : NodeMap :=
  m.filter (fun p => p.1 ≠ k)

/-- Rust `HashMap::insert` (replaces any existing binding of the key). -/
def NodeMap.insert (m : NodeMap) (k : ElementKey) (v : Element) : NodeMap :=
  (k, v) :: m.erase k

/-- Rust `Gui` from src/lib.rs (the GPU-bound context is an external
collaborator and is not part of the layout state). -/
structure Gui where
  nodes : NodeMap
  entry : Option ElementKey
  last_key : ℕ
  size : ℕ × ℕ
  deriving DecidableEq, Repr

/-- Rust `Gui::new`. -/
def Gui.new (size : ℕ × ℕ) : Gui :=
  { nodes := [], entry := Option.none, last_key := 0, size := size }

/-- Rust `Gui::add_element`: issues the key `last_key`, increments the counter,
inserts the element, returns the key. -/
def Gui.add_element (g : Gui) (element : Element) : ElementKey × Gui :=
  let key := g.last_key
  (key, { g with last_key := g.last_key + 1, nodes := g.nodes.insert key element })

/-- Rust `Gui::remove_node`. -/
def Gui.remove_node (g : Gui) (key : ElementKey) : Gui :=
  { g with nodes := g.nodes.erase key }

/-- Rust `Gui::get_node`. -/
def Gui.get_node (g : Gui) (key : ElementKey) : Option Element :=
  g.nodes.find key

/-- Rust `Gui::transform_element` from src/lib.rs, with explicit recursion fuel
(`none` models a pass that does not return normally: the `todo!` panic on
`Layers`/`Rows`/`Columns` children, or exhausted fuel on an unboundedly
deep chain). A missing key returns the state unchanged. The source resolves
width/height against the incoming box's scale; the viewport extent demanded
by the `get_width`/`get_height` signatures is the stored size (spec §4.4). -/
def Gui.transform_element : ℕ → Gui → ElementKey → NodeTransform → Option Gui
  | 0, _, _, _ => Option.none
  | fuel + 1, g, key, transform =>
    match g.nodes.find key with
    | Option.none => Option.some g
    | Option.some node =>
      let styles := node.styles
      let width := styles.get_width transform.scale.1 (g.size.1 : ℚ)
      let height := styles.get_height transform.scale.2 (g.size.2 : ℚ)
      let transform : NodeTransform :=
        { position := (transform.position.1, transform.position.2)
          scale := (width, height)
          rotation := 0 }
      let color := styles.background.color
      let re := node.render_element
      let re :=
        match styles.background.texture with
        | Option.some texture => re.set_texture texture
        | Option.none => re
      let re := re.set_color color
      let re := re.set_transform transform
      let node' := { node with render_element := re }
      let g' := { g with nodes := g.nodes.insert key node' }
      match node.children with
      | Children.element child => Gui.transform_element fuel g' child transform
      | Children.layers _ => Option.none
      | Children.rows _ _ => Option.none
      | Children.columns _ _ => Option.none
      | Children.none => Option.some g'

/-- Rust `Gui::transform_entry` from src/lib.rs: seeds the pass at the entry
with position = viewport center, scale = viewport size, rotation = 0. -/
def Gui.transform_entry (fuel : ℕ) (g : Gui) (size : ℕ × ℕ) : Option Gui :=
  match g.entry with
  | Option.none => Option.some g
  | Option.some entry_key =>
      g.transform_element fuel entry_key
        { position := ((size.1 : ℚ) / 2, (size.2 : ℚ) / 2)
          scale := ((size.1 : ℚ), (size.2 : ℚ))
          rotation := 0 }

/-- Rust `Gui::set_entry` from src/lib.rs: `entry.take()` + `remove_node` on the
previous entry, install the new key, run `transform_entry(self.size)`. -/
def Gui.set_entry (fuel : ℕ) (g : Gui) (key : Option ElementKey) : Option Gui :=
  let g1 :=
    match g.entry with
    | Option.some prev => { (g.remove_node prev) with entry := Option.none }
    | Option.none => g
  let g2 := { g1 with entry := key }
  g2.transform_entry fuel g2.size

/-- Helper: whether a size rule is the parent-relative `Percent` variant. -/
def Size.isPercent : Size → Bool
  | Size.percent _ => true
  | _ => false

/-- Clamp as the source's `(x).min(max).max(min)`, the upper bound optional
(`none` standing for `f32::INFINITY`). -/
def clampQ (x lo : ℚ) (hi : Option ℚ) : ℚ :=
  max (minO x hi) lo

/-- The state `set_entry` reaches right before it reruns propagation: the
previous entry's node (if any) erased from the node map and the new key
installed as the entry. -/
def Gui.entry_replaced (g : Gui) (key : Option ElementKey) : Gui :=
  { g with
    entry := key
    nodes :=
      match g.entry with
      | Option.some prev => g.nodes.erase prev
      | Option.none => g.nodes }

/-- A tree-mutating operation of a session: `Gui::add_element` or
`Gui::remove_node`. -/
inductive GuiOp where
  | add (e : Element)
  | remove (k : ElementKey)
  deriving Repr

/-- Whether an operation is an `add_element` call. -/
def GuiOp.isAdd : GuiOp → Bool
  | GuiOp.add _ => true
  | GuiOp.remove _ => false

/-- Apply one mutating operation; returns the issued key for `add`. -/
def Gui.apply_op (g : Gui) : GuiOp → Gui × Option ElementKey
  | GuiOp.add e =>
      let r := g.add_element e
      (r.2, Option.some r.1)
  | GuiOp.remove k => (g.remove_node k, Option.none)

/-- Run a session of mutating operations, collecting every key issued by
`add_element` calls in order. -/
def Gui.run_ops (g : Gui) : List GuiOp → Gui × List ElementKey
  | [] => (g, [])
  | op :: ops =>
      let r1 := g.apply_op op
      let r2 := r1.1.run_ops ops
      (r2.1, r1.2.toList ++ r2.2)

/-- A childless element carrying default styles. -/
def leafElement : Element :=
  { render_element := RenderElement.zeroed
    styles := StyleSheet.default
    children := Children.none }

/-- Styles with anchor `TopLeft` and self-alignment `Center` (the default
align is already `Center`). -/
def tlcStyles : StyleSheet :=
  { StyleSheet.default with
    transform := { StyleSheet.default.transform with position := Position.topLeft } }

/-- Styles with `width = Pixel(-1)` and everything else default. -/
def pixelNegStyles : StyleSheet :=
  { StyleSheet.default with
    transform := { StyleSheet.default.transform with width := Size.pixel (-1) } }

/-- Styles with `width = Pixel(5)` and everything else default. -/
def pixelFiveStyles : StyleSheet :=
  { StyleSheet.default with
    transform := { StyleSheet.default.transform with width := Size.pixel 5 } }

/-- Styles with `min_width = Pixel(100)` above `max_width = Pixel(50)`. -/
def minMaxConflictStyles : StyleSheet :=
  { StyleSheet.default with
    transform := { StyleSheet.default.transform with
      min_width := Size.pixel 100
      max_width := Size.pixel 50 } }

/-- Styles with consistent bounds `min_width = Pixel(2)`,
`max_width = Pixel(50)`. -/
def boundedStyles : StyleSheet :=
  { StyleSheet.default with
    transform := { StyleSheet.default.transform with
      min_width := Size.pixel 2
      max_width := Size.pixel 50 } }

/-- Styles with `width = Percent(50)`, `margin = Pixel(3)`,
`min_width = Pixel(1)`, `max_width = Pixel(200)`. -/
def percentStyles : StyleSheet :=
  { StyleSheet.default with
    transform := { StyleSheet.default.transform with
      width := Size.percent 50
      margin := Size.pixel 3
      min_width := Size.pixel 1
      max_width := Size.pixel 200 } }

/-- Styles with `width = AbsPercent(50)` but a parent-relative
`min_width = Percent(100)`. -/
def absPctMinPctStyles : StyleSheet :=
  { StyleSheet.default with
    transform := { StyleSheet.default.transform with
      width := Size.absPercent 50
      min_width := Size.percent 100 } }

/-- Styles with `width = AbsPercent(50)` and no parent-relative rules. -/
def absPctStyles : StyleSheet :=
  { StyleSheet.default with
    transform := { StyleSheet.default.transform with width := Size.absPercent 50 } }

/-- An element whose children value is `Element(1)`. -/
def parentElement : Element :=
  { leafElement with children := Children.element 1 }

/-- An element whose children value is `Layers([1])`. -/
def layersElement : Element :=
  { leafElement with children := Children.layers [1] }

/-- A tree with entry node 0 (single child 1) and viewport (8, 6). -/
def guiA : Gui :=
  { nodes := [(0, parentElement), (1, leafElement)]
    entry := Option.some 0
    last_key := 2
    size := (8, 6) }

/-- A tree holding only node 0, viewport (4, 2). -/
def guiB : Gui :=
  { nodes := [(0, leafElement)]
    entry := Option.some 0
    last_key := 1
    size := (4, 2) }

/-- A tree whose entry node 0 has `Layers([1])` children. -/
def guiLayers : Gui :=
  { nodes := [(0, layersElement), (1, leafElement)]
    entry := Option.some 0
    last_key := 2
    size := (8, 6) }

/-- A sample incoming parent box. -/
def sampleTransform : NodeTransform :=
  { position := (2, 1), scale := (4, 2), rotation := 0 }

theorem NodeMap.find_erase_self (m : NodeMap) (k : ElementKey) :
    (m.erase k).find k = Option.none := by
  induction m with
  | nil => rfl
  | cons p rest ih =>
    by_cases hp : p.1 = k
    · simpa [NodeMap.erase, List.filter_cons, hp] using ih
    · simp [NodeMap.erase, NodeMap.find, List.filter_cons, List.find?_cons, hp] at ih ⊢

theorem NodeMap.find_erase_ne (m : NodeMap) (k c : ElementKey) (h : c ≠ k) :
    (m.erase k).find c = m.find c := by
  induction m with
  | nil => rfl
  | cons p rest ih =>
    by_cases hp : p.1 = k
    · simpa [NodeMap.erase, NodeMap.find, List.filter_cons, List.find?_cons, hp, h,
        Ne.symm h] using ih
    · by_cases hpc : p.1 = c
      · simp [NodeMap.erase, NodeMap.find, List.filter_cons, List.find?_cons, hp, hpc, h,
          Ne.symm h]
      · simpa [NodeMap.erase, NodeMap.find, List.filter_cons, List.find?_cons, hp, hpc, h,
          Ne.symm h] using ih

theorem Gui.run_ops_keys (ops : List GuiOp) (g : Gui) :
    (g.run_ops ops).2 = List.range' g.last_key (ops.countP GuiOp.isAdd) := by
  induction ops generalizing g with
  | nil => simp [Gui.run_ops]
  | cons op rest ih =>
    cases op with
    | add e =>
      simp [Gui.run_ops, Gui.apply_op, Gui.add_element, GuiOp.isAdd, List.countP_cons, ih,
        List.range'_succ]
    | remove k =>
      simp [Gui.run_ops, Gui.apply_op, Gui.remove_node, GuiOp.isAdd, List.countP_cons, ih]

/-- C1: with anchor `TopLeft` and self-alignment `Center` inside a parent of
width 100 and height 100 centered at `(0, 0)` and an element of resolved
width 10 and height 10, the code places the element center at
`(-50, -5)` — the x coordinate is `-W/2` as the claim states, but the y
coordinate is `-h/2` (the anchor arm of `get_y` divides the element's own
height, not the parent's), not the claimed `-H/2 = -50`. -/
theorem get_y_topLeft_center_uses_element_height :
    tlcStyles.transform.position = Position.topLeft ∧
    tlcStyles.transform.align = Position.center ∧
    tlcStyles.get_x 0 100 10 = -50 ∧
    tlcStyles.get_y 0 100 10 = -5 ∧
    tlcStyles.get_y 0 100 10 ≠ -50 := by
  refine ⟨rfl, rfl, ?_, ?_, ?_⟩ <;>
    norm_num [tlcStyles, StyleSheet.default, StyleSheet.get_x, StyleSheet.get_y]

/-- C2 counterexample: `width = Pixel(-1)` with margin rule `None` (which
resolves to 0) and unconstrained `min_width`/`max_width` does not return
`-1`: the unset minimum resolves to `0.0` and the final `.max(min)` clamps
the result up to `0`. -/
theorem get_width_pixel_negative_cex :
    pixelNegStyles.transform.width = Size.pixel (-1) ∧
    pixelNegStyles.transform.min_width = Size.none ∧
    pixelNegStyles.transform.max_width = Size.none ∧
    pixelNegStyles.marginWidth 37 91 = 0 ∧
    pixelNegStyles.get_width 37 91 = 0 ∧
    pixelNegStyles.get_width 37 91 ≠ -1 := by
  refine ⟨rfl, rfl, rfl, rfl, ?_, ?_⟩ <;>
    norm_num [pixelNegStyles, StyleSheet.default, StyleSheet.get_width, StyleSheet.rawWidth,
      StyleSheet.minWidth, StyleSheet.maxWidth, StyleSheet.marginWidth, minO, max_def]

/-- C2 (amended): for every `v ≥ 0`, if the width rule is `Size::Pixel(v)`,
the margin rule resolves to zero and `min_width`/`max_width` are
`Size::None`, then `get_width` returns exactly `v` for every parent width
and every viewport width. -/
theorem get_width_pixel_exact_of_nonneg (s : StyleSheet) (v pw ww : ℚ)
    (hw : s.transform.width = Size.pixel v)
    (hmin : s.transform.min_width = Size.none)
    (hmax : s.transform.max_width = Size.none)
    (hm : s.marginWidth pw ww = 0)
    (hv : 0 ≤ v) :
    s.get_width pw ww = v := by
  have h1 : s.rawWidth pw ww = v := by
    unfold StyleSheet.rawWidth
    rw [hw]
  have h2 : s.minWidth pw ww = 0 := by
    unfold StyleSheet.minWidth
    rw [hmin]
  have h3 : s.maxWidth pw ww = Option.none := by
    unfold StyleSheet.maxWidth
    rw [hmax]
  unfold StyleSheet.get_width
  rw [h1, h2, h3, hm, minO, sub_zero]
  exact max_eq_left hv

/-- C2 witness: a pixel width of 5 resolves to exactly 5. -/
theorem get_width_pixel_exact_witness : pixelFiveStyles.get_width 3 7 = 5 :=
  get_width_pixel_exact_of_nonneg pixelFiveStyles 5 3 7 rfl rfl rfl rfl (by norm_num)

/-- C3 counterexample: with `min_width = Pixel(100)` above
`max_width = Pixel(50)`, the code's `(w - margin).min(max).max(min)`
returns 100, violating `output ≤ max_resolved`. -/
theorem get_width_clamp_violation_cex :
    minMaxConflictStyles.minWidth 10 10 = 100 ∧
    minMaxConflictStyles.maxWidth 10 10 = Option.some 50 ∧
    minMaxConflictStyles.get_width 10 10 = 100 ∧
    ¬ minMaxConflictStyles.get_width 10 10 ≤ 50 := by
  refine ⟨rfl, rfl, ?_, ?_⟩ <;>
    norm_num [minMaxConflictStyles, StyleSheet.default, StyleSheet.get_width,
      StyleSheet.rawWidth, StyleSheet.minWidth, StyleSheet.maxWidth, StyleSheet.marginWidth,
      minO, max_def, min_def]

/-- C3 (amended): for every combination of rules and extents,
`min_resolved ≤ output` always holds, and `output ≤ max_resolved` holds
whenever the resolved bounds are consistent (`min_resolved ≤ max_resolved`);
when `min_resolved > max_resolved` the final `.max(min)` wins and the output
exceeds the maximum (see the counterexample). Symmetrically for
`get_height`. -/
theorem get_width_height_clamp_bounds (s : StyleSheet) (pw ww ph wh : ℚ) :
    (s.minWidth pw ww ≤ s.get_width pw ww ∧
      ∀ m, s.maxWidth pw ww = Option.some m → s.minWidth pw ww ≤ m →
        s.get_width pw ww ≤ m) ∧
    (s.minHeight ph wh ≤ s.get_height ph wh ∧
      ∀ m, s.maxHeight ph wh = Option.some m → s.minHeight ph wh ≤ m →
        s.get_height ph wh ≤ m) := by
  refine ⟨⟨le_max_right _ _, ?_⟩, ⟨le_max_right _ _, ?_⟩⟩
  · intro m hm hmin
    unfold StyleSheet.get_width
    rw [hm, minO]
    exact max_le (min_le_right _ _) hmin
  · intro m hm hmin
    unfold StyleSheet.get_height
    rw [hm, minO]
    exact max_le (min_le_right _ _) hmin

/-- C3 witness: with bounds 2 and 50 on a `Fill` width in a parent of
width 10, the output lies between the resolved bounds. -/
theorem get_width_height_clamp_bounds_witness :
    boundedStyles.minWidth 10 7 ≤ boundedStyles.get_width 10 7 ∧
    boundedStyles.get_width 10 7 ≤ 50 := by
  have h := get_width_height_clamp_bounds boundedStyles 10 7 10 7
  refine ⟨h.1.1, h.1.2 50 rfl ?_⟩
  norm_num [boundedStyles, StyleSheet.default, StyleSheet.minWidth]

/-- C4: if the width rule is `Size::Percent(p)`, `get_width` returns
`clamp(parent_width * p/100 - resolved_margin, resolved_min, resolved_max)`:
the resolved margin is subtracted from the raw percentage value before the
min/max clamp is applied. -/
theorem get_width_percent_formula (s : StyleSheet) (p pw ww : ℚ)
    (hw : s.transform.width = Size.percent p) :
    s.get_width pw ww =
      clampQ (pw * (p / 100) - s.marginWidth pw ww) (s.minWidth pw ww) (s.maxWidth pw ww) := by
  have h1 : s.rawWidth pw ww = pw * (p / 100) := by
    unfold StyleSheet.rawWidth
    rw [hw]
  unfold StyleSheet.get_width clampQ
  rw [h1]

/-- C4 witness: `Percent(50)` of a parent of width 80 with margin 3 and
bounds 1 and 200 resolves to the clamp formula. -/
theorem get_width_percent_formula_witness :
    percentStyles.get_width 80 60 =
      clampQ (80 * (50 / 100) - percentStyles.marginWidth 80 60)
        (percentStyles.minWidth 80 60) (percentStyles.maxWidth 80 60) :=
  get_width_percent_formula percentStyles 50 80 60 rfl

/-- C5 counterexample: `width = AbsPercent(50)` with a parent-relative
`min_width = Percent(100)` does depend on the parent width: with viewport
width 100 fixed, parent width 10 gives 50 but parent width 1000 gives
1000. -/
theorem get_width_absPercent_parent_dep_cex :
    absPctMinPctStyles.transform.width = Size.absPercent 50 ∧
    absPctMinPctStyles.get_width 10 100 = 50 ∧
    absPctMinPctStyles.get_width 1000 100 = 1000 ∧
    absPctMinPctStyles.get_width 10 100 ≠ absPctMinPctStyles.get_width 1000 100 := by
  refine ⟨rfl, ?_, ?_, ?_⟩ <;>
    norm_num [absPctMinPctStyles, StyleSheet.default, StyleSheet.get_width,
      StyleSheet.rawWidth, StyleSheet.minWidth, StyleSheet.maxWidth, StyleSheet.marginWidth,
      minO, max_def, min_def]

theorem minWidth_parent_indep (s : StyleSheet) (pw1 pw2 ww : ℚ)
    (h : s.transform.min_width.isPercent = false) :
    s.minWidth pw1 ww = s.minWidth pw2 ww := by
  unfold StyleSheet.minWidth
  cases hm : s.transform.min_width <;> simp [Size.isPercent, hm] at h ⊢

theorem maxWidth_parent_indep (s : StyleSheet) (pw1 pw2 ww : ℚ)
    (h : s.transform.max_width.isPercent = false) :
    s.maxWidth pw1 ww = s.maxWidth pw2 ww := by
  unfold StyleSheet.maxWidth
  cases hm : s.transform.max_width <;> simp [Size.isPercent, hm] at h ⊢

theorem marginWidth_parent_indep (s : StyleSheet) (pw1 pw2 ww : ℚ)
    (h : s.transform.margin.isPercent = false) :
    s.marginWidth pw1 ww = s.marginWidth pw2 ww := by
  unfold StyleSheet.marginWidth
  cases hm : s.transform.margin <;> simp [Size.isPercent, hm] at h ⊢

/-- C5 (amended): if the width rule is `Size::AbsPercent(p)` and none of the
`min_width`/`max_width`/`margin` rules is the parent-relative `Percent`
variant, `get_width` depends only on the viewport width: for any two parent
widths and the same viewport width the outputs are equal. (When one of the
auxiliary rules is `Percent`, the output can depend on the parent width —
see the counterexample.) -/
theorem get_width_absPercent_parent_indep (s : StyleSheet) (p pw1 pw2 ww : ℚ)
    (hw : s.transform.width = Size.absPercent p)
    (hmin : s.transform.min_width.isPercent = false)
    (hmax : s.transform.max_width.isPercent = false)
    (hm : s.transform.margin.isPercent = false) :
    s.get_width pw1 ww = s.get_width pw2 ww := by
  have hr : s.rawWidth pw1 ww = s.rawWidth pw2 ww := by
    unfold StyleSheet.rawWidth
    rw [hw]
  unfold StyleSheet.get_width
  rw [hr, minWidth_parent_indep s pw1 pw2 ww hmin, maxWidth_parent_indep s pw1 pw2 ww hmax,
    marginWidth_parent_indep s pw1 pw2 ww hm]

/-- C5 witness: `AbsPercent(50)` with default auxiliary rules gives the same
output for parent widths 10 and 1000 at viewport width 100. -/
theorem get_width_absPercent_parent_indep_witness :
    absPctStyles.get_width 10 100 = absPctStyles.get_width 1000 100 :=
  get_width_absPercent_parent_indep absPctStyles 50 10 1000 100 rfl rfl rfl rfl

/-- C6: `set_entry(key)` erases the previous entry's node (if one existed)
from the node map — leaving every other key's node, in particular that
node's children, untouched — installs the given key as the new entry, and
immediately reruns the propagation pass on the resulting state, seeded with
the box `{position = (viewport_width/2, viewport_height/2),
scale = (viewport_width, viewport_height), rotation = 0}`. -/
theorem set_entry_replaces_and_repropagates (fuel : ℕ) (g : Gui) (key : Option ElementKey) :
    (g.set_entry fuel key =
      match key with
      | Option.some e =>
          Gui.transform_element fuel (g.entry_replaced key) e
            { position := ((g.size.1 : ℚ) / 2, (g.size.2 : ℚ) / 2)
              scale := ((g.size.1 : ℚ), (g.size.2 : ℚ))
              rotation := 0 }
      | Option.none => Option.some (g.entry_replaced key)) ∧
    (g.entry_replaced key).entry = key ∧
    (∀ prev, g.entry = Option.some prev →
      (g.entry_replaced key).nodes = g.nodes.erase prev) ∧
    (∀ prev c, g.entry = Option.some prev → c ≠ prev →
      (g.entry_replaced key).nodes.find c = g.nodes.find c) := by
  refine ⟨?_, rfl, ?_, ?_⟩
  · cases hg : g.entry <;> cases key <;>
      simp [Gui.set_entry, Gui.transform_entry, Gui.entry_replaced, Gui.remove_node, hg]
  · intro prev hp
    simp [Gui.entry_replaced, hp]
  · intro prev c hp hc
    simp [Gui.entry_replaced, hp, NodeMap.find_erase_ne g.nodes prev c hc]

/-- C6 witness: replacing entry 0 by 1 in a two-node tree erases node 0 and
leaves node 1 (the old entry's child) untouched. -/
theorem set_entry_replaces_and_repropagates_witness :
    (guiA.entry_replaced (Option.some 1)).nodes = guiA.nodes.erase 0 ∧
    (guiA.entry_replaced (Option.some 1)).nodes.find 1 = guiA.nodes.find 1 := by
  have h := set_entry_replaces_and_repropagates 3 guiA (Option.some 1)
  exact ⟨h.2.2.1 0 rfl, h.2.2.2 0 1 rfl (by decide)⟩

/-- C7: when the propagation step is invoked with a key absent from the node
map, it returns normally (no panic, modelled by a `some` result), pushes no
transform/color/texture and modifies no stored node: the state comes back
exactly unchanged. -/
theorem transform_element_missing_key_noop (fuel : ℕ) (g : Gui) (key : ElementKey)
    (t : NodeTransform) (h : g.get_node key = Option.none) :
    g.transform_element (fuel + 1) key t = Option.some g := by
  have h' : g.nodes.find key = Option.none := h
  simp [Gui.transform_element, h']

/-- C7 witness: visiting absent key 5 leaves the one-node tree unchanged. -/
theorem transform_element_missing_key_noop_witness :
    guiB.transform_element 1 5 sampleTransform = Option.some guiB :=
  transform_element_missing_key_noop 0 guiB 5 sampleTransform rfl

/-- C8: in any session of `add_element`/`remove_node` calls starting from
`Gui::new`, the keys issued by `add_element` are exactly
`0, 1, 2, …` in order (a monotonically increasing counter starting at 0):
each call returns a key strictly greater than every previously issued key
and no key is ever reused — removal does not free a key. -/
theorem add_element_keys_fresh_monotone (size : ℕ × ℕ) (ops : List GuiOp) :
    ((Gui.new size).run_ops ops).2 = List.range (ops.countP GuiOp.isAdd) ∧
    List.Pairwise (· < ·) ((Gui.new size).run_ops ops).2 ∧
    ((Gui.new size).run_ops ops).2.Nodup := by
  have h := Gui.run_ops_keys ops (Gui.new size)
  have h0 : (Gui.new size).last_key = 0 := rfl
  rw [h0] at h
  rw [h, ← List.range_eq_range']
  exact ⟨rfl, List.pairwise_lt_range _, List.nodup_range _⟩

/-- C9: on a tree whose entry element has `Layers` children, the propagation
pass does not recurse into the children: it hits the `todo!` panic and
aborts (modelled as `none`), contradicting the claimed graceful recursion. -/
theorem transform_element_layers_aborts :
    guiLayers.get_node 0 = Option.some layersElement ∧
    layersElement.children = Children.layers [1] ∧
    Gui.transform_entry 9 guiLayers guiLayers.size = Option.none :=
  ⟨rfl, rfl, rfl⟩

/-- C10: when the current entry is `Some(k)`, `set_entry(Some(k))` first
removes node `k` and then reinstalls `k` as the entry: afterwards the entry
is `Some(k)`, `get_node(k)` is `None`, and the triggered propagation pass
finds no node and leaves the state otherwise untouched. -/
theorem set_entry_same_key_removes_node (fuel : ℕ) (g : Gui) (k : ElementKey)
    (h : g.entry = Option.some k) :
    g.set_entry (fuel + 1) (Option.some k) =
      Option.some { g with nodes := g.nodes.erase k, entry := Option.some k } ∧
    Gui.get_node { g with nodes := g.nodes.erase k, entry := Option.some k } k =
      Option.none := by
  constructor
  · simp [Gui.set_entry, Gui.transform_entry, Gui.remove_node, h, Gui.transform_element,
      NodeMap.find_erase_self]
  · simpa [Gui.get_node] using NodeMap.find_erase_self g.nodes k

/-- C10 witness: re-setting the entry of a one-node tree to its own key
erases the node while keeping it the entry. -/
theorem set_entry_same_key_removes_node_witness :
    guiB.set_entry 1 (Option.some 0) =
      Option.some { guiB with nodes := guiB.nodes.erase 0, entry := Option.some 0 } ∧
    Gui.get_node { guiB with nodes := guiB.nodes.erase 0, entry := Option.some 0 } 0 =
      Option.none :=
  set_entry_same_key_removes_node 0 guiB 0 rfl
